import Mathlib

/-!
Verification development for the Pileus API client
(`pileus_API_service.py`): a shallow embedding of the session /
transport / domain-operation layer, followed by theorems about the
claims of the specification.

Modelling conventions:
* Python values that flow through the client (JSON-parsed bodies,
  `None`, strings, ints) are embedded as `PyVal`.
* The network is an explicit parameter: each HTTP exchange is driven by
  an `HttpOutcome` describing what `requests` would have produced
  (timeout, connection error, other request exception, or a completed
  response with a status code, a body text and an optional JSON parse
  of that body).
* Python exceptions that can escape the embedded code
  (`AttributeError` from attribute access on a value lacking the
  attribute, `TypeError`/`ValueError` from `int(...)`) are embedded
  with `Except PyExc`.
* Logging and issued network requests are returned explicitly.
* The local file-system side effect of `onboard_aws_account_msp`
  (lines 210-233 of the source: saving `setup.sh`, the interactive
  folder prompt) produces no return value in the source; the model
  keeps its `Script saved` log entry and omits the file write and the
  interactive prompt, which do not affect any value the claims speak
  about.
-/

/-- Embedded Python values: the value forms that flow through the
client (None, booleans, ints, strings, JSON objects and arrays). -/
inductive PyVal where
  | none
  | bool (b : Bool)
  | int (n : Int)
  | str (s : String)
  | dict (fields : List (String × PyVal))
  | list (elems : List PyVal)

/-- Python exceptions that can escape the embedded code. -/
inductive PyExc where
  | attributeError
  | typeError
  | valueError
deriving DecidableEq

/-- Python truthiness (`bool(v)` / `if v:`) on embedded values. -/
def pyTruthy : PyVal → Bool
  | .none => false
  | .bool b => b
  | .int n => n != 0
  | .str s => s ≠ ""
  | .dict [] => false
  | .dict (_ :: _) => true
  | .list [] => false
  | .list (_ :: _) => true

/-- Truthiness of `not x` for an optional string (the credential
fields): Python `not x` is true when `x` is `None` or `""`. -/
def optStrFalsy : Option String → Bool
  | Option.none => true
  | Option.some s => s = ""

/-- First-match association lookup in an embedded dict's field list. -/
def assocLookup : List (String × PyVal) → String → Option PyVal
  | [], _ => Option.none
  | (k, v) :: rest, key => if k = key then Option.some v else assocLookup rest key

/-- Python `v.get(key)`: on a dict, the value at `key` (defaulting to
`None`); on any other embedded value the attribute is missing, so an
`AttributeError` is raised. -/
def pyGet (v : PyVal) (key : String) : Except PyExc PyVal :=
  match v with
  | .dict fields => .ok ((assocLookup fields key).getD PyVal.none)
  | _ => .error .attributeError

/-- Whether `pat` starts `l` (character-list comparison). -/
def isPre : List Char → List Char → Bool
  | [], _ => true
  | _ :: _, [] => false
  | p :: ps, c :: cs => p == c && isPre ps cs

/-- Fuelled left-to-right replacement of all non-overlapping
occurrences of `pat` by `rep`; with `fuel` at least the length of the
list this is Python `str.replace` for a non-empty pattern (the only
pattern the source uses is `"-1"`). -/
def replaceAux (pat rep : List Char) : Nat → List Char → List Char
  | _, [] => []
  | 0, l => l
  | fuel + 1, c :: cs =>
    if isPre pat (c :: cs) then
      rep ++ replaceAux pat rep fuel ((c :: cs).drop pat.length)
    else
      c :: replaceAux pat rep fuel cs

/-- Python `s.replace(pat, rep)` on strings (non-empty pattern). -/
def strReplace (s pat rep : String) : String :=
  String.mk (replaceAux pat.toList rep.toList s.toList.length s.toList)

/-- Python `v.replace(old, new)`: defined on strings; any other
embedded value (in particular `None`) lacks the attribute and raises
`AttributeError`. -/
def pyReplace (v : PyVal) (old new : String) : Except PyExc PyVal :=
  match v with
  | .str s => .ok (.str (strReplace s old new))
  | _ => .error .attributeError

/-- Value of a digit character. -/
def digitVal (c : Char) : Option Nat :=
  if c.isDigit then Option.some (c.toNat - '0'.toNat) else Option.none

/-- Parse a non-empty all-digit character list as a natural number. -/
def digitsToNat : List Char → Option Nat
  | [] => Option.none
  | cs => cs.foldl
      (fun acc c =>
        match acc, digitVal c with
        | Option.some a, Option.some d => Option.some (a * 10 + d)
        | _, _ => Option.none)
      (Option.some 0)

/-- Parse a decimal integer literal with an optional sign, as Python
`int(...)` accepts for the string forms the program passes ("0", "1"
from the prompt validation, and arbitrary non-numeric strings which
raise `ValueError`). -/
def parseIntStr (s : String) : Option Int :=
  match s.toList with
  | '-' :: cs => (digitsToNat cs).map (fun n => -(n : Int))
  | '+' :: cs => (digitsToNat cs).map (fun n => (n : Int))
  | cs => (digitsToNat cs).map (fun n => (n : Int))

/-- Python `int(v)` on the embedded values: ints pass through, bools
coerce to 0/1, strings are parsed (raising `ValueError` when not a
valid integer literal), and `None`/dicts/lists raise `TypeError`. -/
def pyInt (v : PyVal) : Except PyExc Int :=
  match v with
  | .bool b => .ok (if b then 1 else 0)
  | .int n => .ok n
  | .str s =>
    match parseIntStr s with
    | Option.some n => .ok n
    | Option.none => .error .valueError
  | _ => .error .typeError

/-- Python `v is not None` on embedded values. -/
def pyIsNone : PyVal → Bool
  | .none => true
  | _ => false

/-- Python `isinstance(v, str)` on embedded values. -/
def pyIsStr : PyVal → Bool
  | .str _ => true
  | _ => false

/-- Log severity levels used by the client. -/
inductive LogLevel where
  | info
  | error
  | warning
deriving DecidableEq

/-- One log line: severity plus the formatted message. -/
structure LogEntry where
  level : LogLevel
  msg : String

/-- Whether a log contains an error-level entry. -/
def hasErrorLog (l : List LogEntry) : Bool :=
  l.any fun e =>
    match e.level with
    | .error => true
    | _ => false

/-- HTTP methods the client uses. -/
inductive Method where
  | get
  | post

/-- A network request as the transport layer issues it. -/
structure NetRequest where
  method : Method
  url : String
  headers : List (String × PyVal)
  payload : Option (List (String × PyVal))

/-- What the `requests` library produces for one HTTP exchange: a
transport-level failure, or a completed response carrying the status
code, the body text, and the JSON parse of the body when the body
parses as JSON (`Option.none` models a JSON decode failure). -/
inductive HttpOutcome where
  | timeout
  | connectionError
  | requestException
  | response (status : Nat) (text : String) (json : Option PyVal)

/-- Whether the outcome is a transport-level failure (no response). -/
def isFailureOutcome : HttpOutcome → Bool
  | .response _ _ _ => false
  | _ => true

/-- The session object: credentials resolved at construction plus the
three mutable fields, each initialized to `None` by `__init__`. -/
structure PileusAPIService where
  username : Option String
  password : Option String
  auth_token : PyVal
  api_key : PyVal
  account_api_key : PyVal

/-- A freshly constructed service: the three session fields are
`None`. -/
def PileusAPIService.init (username password : Option String) : PileusAPIService :=
  ⟨username, password, PyVal.none, PyVal.none, PyVal.none⟩

def BASE_AUTH_URL : String := "https://tokenizer.mypileus.io/prod/credentials"

def BASE_API_URL : String := "https://api.mypileus.io/api/v1"

def BASE_API_V2_URL : String := "https://api.mypileus.io/api/v2"

/-- Result of a transport call (and of the domain operations that
return the transport result unchanged): the Python return value, the
log lines emitted, and the network requests issued. -/
structure TransportOut where
  ret : PyVal
  log : List LogEntry
  net : List NetRequest

/-- The source's `send_post_request` (lines 87-107): one POST attempt;
transport failures are caught, logged and collapsed to `None`; a
completed response logs the status (error-logging a non-200) and
returns the JSON parse of the body, falling back to the raw text when
the body is not JSON. It never raises. -/
def send_post_request (url : String) (headers : List (String × PyVal))
    (payload : List (String × PyVal)) (outcome : HttpOutcome) : TransportOut :=
  let req : NetRequest := ⟨Method.post, url, headers, Option.some payload⟩
  match outcome with
  | .timeout =>
    ⟨PyVal.none, [⟨.error, "POST request to " ++ url ++ " timed out."⟩], [req]⟩
  | .connectionError =>
    ⟨PyVal.none,
      [⟨.error, "Connection error occurred when sending POST request to " ++ url ++ "."⟩],
      [req]⟩
  | .requestException =>
    ⟨PyVal.none, [⟨.error, "An unexpected error occurred"⟩], [req]⟩
  | .response status text json =>
    ⟨json.getD (PyVal.str text),
      ⟨.info, "POST Request to " ++ url ++ " - Status Code: " ++ toString status⟩ ::
        (if status ≠ 200 then [⟨.error, "POST request failed: " ++ text⟩] else []),
      [req]⟩

/-- The source's `send_get_request` (lines 109-127): one GET attempt;
transport failures are caught, logged and collapsed to `None`; a
completed response logs the status (error-logging a non-200) and
returns the JSON body only on status 200, `None` otherwise. A JSON
decode failure on a 200 response raises `requests.exceptions.JSONDecodeError`,
a `RequestException` subclass, so the last handler logs it and the
function returns `None`. It never raises. -/
def send_get_request (url : String) (headers : List (String × PyVal))
    (outcome : HttpOutcome) : TransportOut :=
  let req : NetRequest := ⟨Method.get, url, headers, Option.none⟩
  match outcome with
  | .timeout =>
    ⟨PyVal.none, [⟨.error, "GET request to " ++ url ++ " timed out."⟩], [req]⟩
  | .connectionError =>
    ⟨PyVal.none,
      [⟨.error, "Connection error occurred when sending GET request to " ++ url ++ "."⟩],
      [req]⟩
  | .requestException =>
    ⟨PyVal.none, [⟨.error, "An unexpected error occurred"⟩], [req]⟩
  | .response status text json =>
    let baseLog : List LogEntry :=
      ⟨.info, "GET Request to " ++ url ++ " - Status Code: " ++ toString status⟩ ::
        ⟨.info, "POST Request to " ++ url ++ " - Response Text: " ++ text⟩ ::
          (if status ≠ 200 then [⟨.error, "GET request failed: " ++ text⟩] else [])
    if status = 200 then
      match json with
      | Option.some v => ⟨v, baseLog, [req]⟩
      | Option.none =>
        ⟨PyVal.none, baseLog ++ [⟨.error, "An unexpected error occurred"⟩], [req]⟩
    else
      ⟨PyVal.none, baseLog, [req]⟩

/-- Result of `authenticate`: the Python return value (`Bool`, or the
exception that escaped), the session state after the call, the log,
and the network requests issued. -/
structure AuthOut where
  ret : Except PyExc Bool
  state : PileusAPIService
  log : List LogEntry
  net : List NetRequest

/-- The source's `authenticate` (lines 54-85): guard on missing
credentials; POST the credentials; on a truthy response store
`response.get("Authorization")` and `response.get("apikey")` and
derive `account_api_key` by `self.api_key.replace("-1", "18745:0")`;
finally return `bool(self.auth_token and self.api_key)`. Attribute
access on a truthy non-dict response, or `.replace` on a non-string
`api_key`, raises `AttributeError`. -/
def authenticate (s : PileusAPIService) (outcome : HttpOutcome) : AuthOut :=
  if optStrFalsy s.username || optStrFalsy s.password then
    ⟨.ok false, s,
      [⟨.error, "Missing credentials. Set them in config.ini or as environment variables."⟩],
      []⟩
  else
    let payload : List (String × PyVal) :=
      [("username", PyVal.str (s.username.getD "")),
       ("password", PyVal.str (s.password.getD ""))]
    let headers : List (String × PyVal) := [("Content-Type", PyVal.str "application/json")]
    let t := send_post_request BASE_AUTH_URL headers payload outcome
    if pyTruthy t.ret then
      match pyGet t.ret "Authorization" with
      | .error e => ⟨.error e, s, t.log, t.net⟩
      | .ok tok =>
        let s1 := { s with auth_token := tok }
        match pyGet t.ret "apikey" with
        | .error e => ⟨.error e, s1, t.log, t.net⟩
        | .ok key =>
          let s2 := { s1 with api_key := key }
          match pyReplace key "-1" "18745:0" with
          | .error e => ⟨.error e, s2, t.log, t.net⟩
          | .ok derived =>
            let s3 := { s2 with account_api_key := derived }
            ⟨.ok (pyTruthy s3.auth_token && pyTruthy s3.api_key), s3, t.log, t.net⟩
    else
      ⟨.ok (pyTruthy s.auth_token && pyTruthy s.api_key), s, t.log, t.net⟩

/-- The source's `get_list_of_users` (lines 129-141): guard on the
session fields then GET `{base}/users`. -/
def get_list_of_users (s : PileusAPIService) (outcome : HttpOutcome) : TransportOut :=
  if !pyTruthy s.auth_token || !pyTruthy s.api_key then
    ⟨PyVal.none, [⟨.error, "Authentication required. Please authenticate first."⟩], []⟩
  else
    send_get_request (BASE_API_URL ++ "/users")
      [("Authorization", s.auth_token), ("apikey", s.api_key)] outcome

/-- The source's `get_users_and_roles` (lines 143-155): guard on the
session fields then GET `{base}/users/with-roles`. -/
def get_users_and_roles (s : PileusAPIService) (outcome : HttpOutcome) : TransportOut :=
  if !pyTruthy s.auth_token || !pyTruthy s.api_key then
    ⟨PyVal.none, [⟨.error, "Authentication required. Please authenticate first."⟩], []⟩
  else
    send_get_request (BASE_API_URL ++ "/users/with-roles")
      [("Authorization", s.auth_token), ("apikey", s.api_key)] outcome

/-- The source's `onboard_aws_account` (lines 157-176): guard on the
session fields, then POST to `{baseV2}/onboarding/aws/{account_id}`
with the account-scoped key in the headers and a payload defaulting
`bucketName` to `cur-{account_id}` when the argument is falsy. The
source's parameter defaults are `bucket_name=None`,
`bucket_region="us-east-1"`; the model passes both explicitly. -/
def onboard_aws_account (s : PileusAPIService) (account_id account_name : String)
    (bucket_name bucket_region : PyVal) (outcome : HttpOutcome) : TransportOut :=
  if !pyTruthy s.auth_token || !pyTruthy s.api_key then
    ⟨PyVal.none, [⟨.error, "Authentication required. Please authenticate first."⟩], []⟩
  else
    let url := BASE_API_V2_URL ++ "/onboarding/aws/" ++ account_id
    let headers : List (String × PyVal) :=
      [("Authorization", s.auth_token),
       ("apikey", s.account_api_key),
       ("Content-Type", PyVal.str "application/json")]
    let payload : List (String × PyVal) :=
      [("accountName", PyVal.str account_name),
       ("bucketName",
         if pyTruthy bucket_name then bucket_name else PyVal.str ("cur-" ++ account_id)),
       ("bucketRegion", bucket_region)]
    send_post_request url headers payload outcome

/-- Result of `onboard_aws_account_msp`: the Python return value
(always `None` on normal completion, or the exception that escaped),
the log, and the network requests issued. -/
structure MspOut where
  ret : Except PyExc PyVal
  log : List LogEntry
  net : List NetRequest

/-- The source's `onboard_aws_account_msp` (lines 178-233): guard on
the session fields; build the payload dict (whose value expressions
evaluate in order, so `int(account_type)`, then
`int(is_customer_self_managed)`, then `int(auto_assign_linked_accounts)`
can raise before the request is sent); strip `None` values; POST; on a
truthy string response, save the script locally (the model keeps the
log entry and omits the file write and folder prompt). The function
body has no `return` after the POST, so normal completion returns
`None`. The source's parameter defaults (`bucket_region="us-east-1"`,
`account_type="dedicated"`, all remaining parameters `None`) are
passed explicitly in the model. -/
def onboard_aws_account_msp (s : PileusAPIService) (account_id account_name : String)
    (bucket_name bucket_region account_type reseller_customer_id reseller_customer_name
      is_customer_self_managed reseller_customer_domain auto_assign_linked_accounts
      excluded_linked_account_match : PyVal) (outcome : HttpOutcome) : MspOut :=
  if !pyTruthy s.auth_token || !pyTruthy s.api_key then
    ⟨.ok PyVal.none,
      [⟨.error, "Authentication required. Please authenticate first."⟩], []⟩
  else
    let url := BASE_API_V2_URL ++ "/onboarding/aws/" ++ account_id
    let headers : List (String × PyVal) :=
      [("Authorization", s.auth_token),
       ("apikey", s.account_api_key),
       ("Content-Type", PyVal.str "application/json")]
    match pyInt account_type with
    | .error e => ⟨.error e, [], []⟩
    | .ok accountTypeInt =>
      match pyInt is_customer_self_managed with
      | .error e => ⟨.error e, [], []⟩
      | .ok icsm =>
        match pyInt auto_assign_linked_accounts with
        | .error e => ⟨.error e, [], []⟩
        | .ok aala =>
          let rawPayload : List (String × PyVal) :=
            [("accountName", PyVal.str account_name),
             ("bucketName",
               if pyTruthy bucket_name then bucket_name
               else PyVal.str ("cur-" ++ account_id)),
             ("bucketRegion",
               if pyTruthy bucket_region then bucket_region else PyVal.str "us-east-1"),
             ("accountType",
               if accountTypeInt != 0 then PyVal.str "dedicated" else PyVal.str "shared"),
             ("resellerCustomerId",
               if pyTruthy reseller_customer_id then reseller_customer_id else PyVal.none),
             ("resellerCustomerName",
               if pyTruthy reseller_customer_name then reseller_customer_name
               else PyVal.none),
             ("isCustomerSelfManaged", PyVal.int icsm),
             ("resellerCustomerDomain",
               if pyTruthy reseller_customer_domain then reseller_customer_domain
               else PyVal.none),
             ("autoAssignLinkedAccounts", PyVal.int aala),
             ("excludedLinkedAccountMatch",
               if pyTruthy excluded_linked_account_match then excluded_linked_account_match
               else PyVal.none)]
          let payload := rawPayload.filter (fun kv => !pyIsNone kv.2)
          let t := send_post_request url headers payload outcome
          let scriptLog : List LogEntry :=
            if pyTruthy t.ret && pyIsStr t.ret then
              [⟨.info,
                "Script saved to " ++ account_name ++ "_" ++ account_id ++ "/setup.sh"⟩]
            else []
          ⟨.ok PyVal.none, t.log ++ scriptLog, t.net⟩

/-- Truthiness of the absent value, used by several proofs. -/
theorem pyTruthy_none : pyTruthy PyVal.none = false := rfl

/-- A freshly constructed service with concrete credentials, for the
concrete-input theorems. -/
def sampleService : PileusAPIService :=
  PileusAPIService.init (Option.some "u") (Option.some "p")

/-- A session as it stands after a successful authentication, for the
concrete-input theorems. -/
def sampleAuthedService : PileusAPIService :=
  ⟨Option.some "u", Option.some "p", PyVal.str "tok", PyVal.str "key-1",
    PyVal.str "key18745:0"⟩

/-- C3: with an empty or absent username or password, `authenticate`
logs an error and returns false without issuing any network call. -/
theorem authenticate_missing_credentials (s : PileusAPIService) (o : HttpOutcome)
    (h : (optStrFalsy s.username || optStrFalsy s.password) = true) :
    (authenticate s o).ret = Except.ok false ∧
      hasErrorLog (authenticate s o).log = true ∧
      (authenticate s o).net = [] := by
  simp [authenticate, h, hasErrorLog]

/-- Witness for C3 at a concrete empty-username service. -/
theorem authenticate_missing_credentials_witness :
    (optStrFalsy (PileusAPIService.init (Option.some "") (Option.some "p")).username ||
        optStrFalsy (PileusAPIService.init (Option.some "") (Option.some "p")).password) = true ∧
      (authenticate (PileusAPIService.init (Option.some "") (Option.some "p"))
          HttpOutcome.timeout).ret = Except.ok false ∧
      hasErrorLog (authenticate (PileusAPIService.init (Option.some "") (Option.some "p"))
          HttpOutcome.timeout).log = true ∧
      (authenticate (PileusAPIService.init (Option.some "") (Option.some "p"))
          HttpOutcome.timeout).net = [] :=
  ⟨rfl, authenticate_missing_credentials
    (PileusAPIService.init (Option.some "") (Option.some "p")) HttpOutcome.timeout rfl⟩

/-- C6: on a completed exchange with a non-200 status, a POST still
returns the body (the JSON parse when the body parses, the raw text
otherwise) and logs an error, while a GET returns `None`, discards the
body, and logs an error. -/
theorem non200_post_returns_body_get_returns_null (url : String)
    (headers payload ghead : List (String × PyVal)) (status : Nat) (text : String)
    (json : Option PyVal) (h : status ≠ 200) :
    (send_post_request url headers payload (.response status text json)).ret
        = json.getD (PyVal.str text) ∧
      hasErrorLog (send_post_request url headers payload (.response status text json)).log
        = true ∧
      (send_get_request url ghead (.response status text json)).ret = PyVal.none ∧
      hasErrorLog (send_get_request url ghead (.response status text json)).log = true := by
  simp [send_post_request, send_get_request, hasErrorLog, h]

/-- Witness for C6 at status 500. -/
theorem non200_post_returns_body_get_returns_null_witness :
    (500 : Nat) ≠ 200 ∧
      ((send_post_request "u" [] [] (.response 500 "err" Option.none)).ret
          = (Option.none : Option PyVal).getD (PyVal.str "err") ∧
        hasErrorLog (send_post_request "u" [] [] (.response 500 "err" Option.none)).log
          = true ∧
        (send_get_request "u" [] (.response 500 "err" Option.none)).ret = PyVal.none ∧
        hasErrorLog (send_get_request "u" [] (.response 500 "err" Option.none)).log = true) :=
  ⟨by decide,
    non200_post_returns_body_get_returns_null "u" [] [] [] 500 "err" Option.none (by decide)⟩

/-- C7: when the auth endpoint responds with Authorization "tok" and
apikey "key-1", authenticate succeeds and the derived account-scoped
key is "key18745:0" (literal replacement of "-1" by "18745:0"). -/
theorem authenticate_derives_account_key :
    (authenticate sampleService
        (.response 200 ""
          (Option.some (.dict [("Authorization", PyVal.str "tok"),
            ("apikey", PyVal.str "key-1")])))).state.account_api_key
        = PyVal.str "key18745:0" ∧
      (authenticate sampleService
        (.response 200 ""
          (Option.some (.dict [("Authorization", PyVal.str "tok"),
            ("apikey", PyVal.str "key-1")])))).ret = Except.ok true :=
  ⟨rfl, rfl⟩

/-- C10: when the transport call fails (returns `None`), authenticate
returns false and leaves the session exactly as it was, with all three
fields still absent. -/
theorem authenticate_transport_failure_keeps_state (s : PileusAPIService) (o : HttpOutcome)
    (hu : optStrFalsy s.username = false) (hp : optStrFalsy s.password = false)
    (hA : s.auth_token = PyVal.none) (hK : s.api_key = PyVal.none)
    (hAcc : s.account_api_key = PyVal.none) (hf : isFailureOutcome o = true) :
    (authenticate s o).ret = Except.ok false ∧ (authenticate s o).state = s := by
  cases o <;> simp_all [authenticate, send_post_request, pyTruthy, isFailureOutcome]

/-- Witness for C10 at a concrete fresh service and a timeout. -/
theorem authenticate_transport_failure_keeps_state_witness :
    optStrFalsy sampleService.username = false ∧
      optStrFalsy sampleService.password = false ∧
      sampleService.auth_token = PyVal.none ∧
      sampleService.api_key = PyVal.none ∧
      sampleService.account_api_key = PyVal.none ∧
      isFailureOutcome HttpOutcome.timeout = true ∧
      ((authenticate sampleService HttpOutcome.timeout).ret = Except.ok false ∧
        (authenticate sampleService HttpOutcome.timeout).state = sampleService) :=
  ⟨rfl, rfl, rfl, rfl, rfl, rfl,
    authenticate_transport_failure_keeps_state sampleService HttpOutcome.timeout
      rfl rfl rfl rfl rfl rfl⟩

/-- C8: an authenticated `onboard_aws_account` call with no bucket name
supplied (and the default region) transmits exactly one POST whose
payload has bucketName `cur-{accountId}` and bucketRegion
`us-east-1`, with the account-scoped key in the headers. -/
theorem onboard_aws_account_default_bucket (s : PileusAPIService)
    (account_id account_name : String) (o : HttpOutcome)
    (hA : pyTruthy s.auth_token = true) (hK : pyTruthy s.api_key = true) :
    (onboard_aws_account s account_id account_name PyVal.none (PyVal.str "us-east-1") o).net
      = [⟨Method.post, BASE_API_V2_URL ++ "/onboarding/aws/" ++ account_id,
          [("Authorization", s.auth_token), ("apikey", s.account_api_key),
            ("Content-Type", PyVal.str "application/json")],
          Option.some
            [("accountName", PyVal.str account_name),
              ("bucketName", PyVal.str ("cur-" ++ account_id)),
              ("bucketRegion", PyVal.str "us-east-1")]⟩] := by
  cases o <;> simp [onboard_aws_account, send_post_request, hA, hK, pyTruthy_none]

/-- Witness for C8: `onboard_aws_account("123", "Acme")` on an
authenticated session transmits bucketName `cur-123` and bucketRegion
`us-east-1`. -/
theorem onboard_aws_account_default_bucket_witness :
    pyTruthy sampleAuthedService.auth_token = true ∧
      pyTruthy sampleAuthedService.api_key = true ∧
      (onboard_aws_account sampleAuthedService "123" "Acme" PyVal.none
          (PyVal.str "us-east-1") HttpOutcome.timeout).net
        = [⟨Method.post, BASE_API_V2_URL ++ "/onboarding/aws/" ++ "123",
            [("Authorization", sampleAuthedService.auth_token),
              ("apikey", sampleAuthedService.account_api_key),
              ("Content-Type", PyVal.str "application/json")],
            Option.some
              [("accountName", PyVal.str "Acme"),
                ("bucketName", PyVal.str ("cur-" ++ "123")),
                ("bucketRegion", PyVal.str "us-east-1")]⟩] :=
  ⟨rfl, rfl,
    onboard_aws_account_default_bucket sampleAuthedService "123" "Acme"
      HttpOutcome.timeout rfl rfl⟩

/-- C4: every domain operation invoked while `auth_token` or `api_key`
is absent logs an error and returns `None` without issuing any network
call. -/
theorem domain_ops_require_auth (s : PileusAPIService) (o : HttpOutcome)
    (account_id account_name : String)
    (bn br acctType rci rcn icsm rcd aala elam : PyVal)
    (h : s.auth_token = PyVal.none ∨ s.api_key = PyVal.none) :
    ((get_list_of_users s o).ret = PyVal.none ∧
        hasErrorLog (get_list_of_users s o).log = true ∧
        (get_list_of_users s o).net = []) ∧
      ((get_users_and_roles s o).ret = PyVal.none ∧
        hasErrorLog (get_users_and_roles s o).log = true ∧
        (get_users_and_roles s o).net = []) ∧
      ((onboard_aws_account s account_id account_name bn br o).ret = PyVal.none ∧
        hasErrorLog (onboard_aws_account s account_id account_name bn br o).log = true ∧
        (onboard_aws_account s account_id account_name bn br o).net = []) ∧
      ((onboard_aws_account_msp s account_id account_name bn br acctType rci rcn icsm
          rcd aala elam o).ret = Except.ok PyVal.none ∧
        hasErrorLog (onboard_aws_account_msp s account_id account_name bn br acctType rci
          rcn icsm rcd aala elam o).log = true ∧
        (onboard_aws_account_msp s account_id account_name bn br acctType rci rcn icsm
          rcd aala elam o).net = []) := by
  have hguard : (!pyTruthy s.auth_token || !pyTruthy s.api_key) = true := by
    rcases h with h | h <;> simp [h, pyTruthy]
  simp [get_list_of_users, get_users_and_roles, onboard_aws_account,
    onboard_aws_account_msp, hguard, hasErrorLog]

/-- Witness for C4 at a fresh (never-authenticated) service. -/
theorem domain_ops_require_auth_witness :
    (sampleService.auth_token = PyVal.none ∨ sampleService.api_key = PyVal.none) ∧
      (get_list_of_users sampleService HttpOutcome.timeout).ret = PyVal.none ∧
      (get_users_and_roles sampleService HttpOutcome.timeout).ret = PyVal.none ∧
      (onboard_aws_account sampleService "123" "Acme" PyVal.none
        (PyVal.str "us-east-1") HttpOutcome.timeout).net = [] ∧
      (onboard_aws_account_msp sampleService "123" "Acme" PyVal.none PyVal.none
        PyVal.none PyVal.none PyVal.none PyVal.none PyVal.none PyVal.none PyVal.none
        HttpOutcome.timeout).ret = Except.ok PyVal.none :=
  ⟨Or.inl rfl,
    ((domain_ops_require_auth sampleService HttpOutcome.timeout "123" "Acme"
      PyVal.none PyVal.none PyVal.none PyVal.none PyVal.none PyVal.none PyVal.none
      PyVal.none PyVal.none (Or.inl rfl)).1.1),
    ((domain_ops_require_auth sampleService HttpOutcome.timeout "123" "Acme"
      PyVal.none PyVal.none PyVal.none PyVal.none PyVal.none PyVal.none PyVal.none
      PyVal.none PyVal.none (Or.inl rfl)).2.1.1),
    ((domain_ops_require_auth sampleService HttpOutcome.timeout "123" "Acme"
      PyVal.none (PyVal.str "us-east-1") PyVal.none PyVal.none PyVal.none PyVal.none
      PyVal.none PyVal.none PyVal.none (Or.inl rfl)).2.2.1.2.2),
    ((domain_ops_require_auth sampleService HttpOutcome.timeout "123" "Acme"
      PyVal.none PyVal.none PyVal.none PyVal.none PyVal.none PyVal.none PyVal.none
      PyVal.none PyVal.none (Or.inl rfl)).2.2.2.1)⟩

/-- C1 (counterexample): on a truthy non-JSON auth response body,
`authenticate` raises AttributeError (string has no `.get`) instead of
returning false as the claim states. -/
theorem authenticate_nonjson_body_raises :
    (authenticate sampleService
        (.response 200 "#!/bin/sh" Option.none)).ret
      = Except.error PyExc.attributeError ∧
    (authenticate sampleService
        (.response 200 "#!/bin/sh" Option.none)).ret ≠ Except.ok false :=
  ⟨rfl, fun h => nomatch h⟩

/-- C1 (amended): on every execution of `authenticate` that returns
normally (no exception), the returned boolean is true iff both
`auth_token` and `api_key` are truthy after the call (stated for
sessions whose fields are absent before the call). -/
theorem authenticate_ok_iff_token_and_key (s : PileusAPIService) (o : HttpOutcome)
    (b : Bool) (hA : s.auth_token = PyVal.none) (hK : s.api_key = PyVal.none)
    (hret : (authenticate s o).ret = Except.ok b) :
    (b = true ↔ (pyTruthy (authenticate s o).state.auth_token = true ∧
      pyTruthy (authenticate s o).state.api_key = true)) := by
  by_cases hg : (optStrFalsy s.username || optStrFalsy s.password) = true
  · simp [authenticate, hg] at hret ⊢
    simp [hA, hK, pyTruthy_none, ← hret]
  · by_cases ht : pyTruthy (send_post_request BASE_AUTH_URL
        [("Content-Type", PyVal.str "application/json")]
        [("username", PyVal.str (s.username.getD "")),
          ("password", PyVal.str (s.password.getD ""))] o).ret = true
    · rcases hG : pyGet (send_post_request BASE_AUTH_URL
          [("Content-Type", PyVal.str "application/json")]
          [("username", PyVal.str (s.username.getD "")),
            ("password", PyVal.str (s.password.getD ""))] o).ret "Authorization" with eG | tok
      · simp [authenticate, hg, ht, hG] at hret
      · rcases hK2 : pyGet (send_post_request BASE_AUTH_URL
            [("Content-Type", PyVal.str "application/json")]
            [("username", PyVal.str (s.username.getD "")),
              ("password", PyVal.str (s.password.getD ""))] o).ret "apikey" with eK | key
        · simp [authenticate, hg, ht, hG, hK2] at hret
        · rcases hR : pyReplace key "-1" "18745:0" with eR | der
          · simp [authenticate, hg, ht, hG, hK2, hR] at hret
          · simp [authenticate, hg, ht, hG, hK2, hR] at hret ⊢
            simp [← hret, Bool.and_eq_true]
    · simp [authenticate, hg, ht] at hret ⊢
      simp [hA, hK, pyTruthy_none] at hret ⊢
      simp [← hret]

/-- Witness for the amended C1 at a concrete transport failure. -/
theorem authenticate_ok_iff_token_and_key_witness :
    sampleService.auth_token = PyVal.none ∧ sampleService.api_key = PyVal.none ∧
      (authenticate sampleService HttpOutcome.timeout).ret = Except.ok false ∧
      (false = true ↔
        (pyTruthy (authenticate sampleService HttpOutcome.timeout).state.auth_token = true ∧
          pyTruthy (authenticate sampleService HttpOutcome.timeout).state.api_key = true)) :=
  ⟨rfl, rfl, rfl,
    authenticate_ok_iff_token_and_key sampleService HttpOutcome.timeout false rfl rfl rfl⟩

/-- C2 (counterexample): `authenticate` raises AttributeError when the
auth endpoint's JSON response lacks the apikey field
(`None.replace(...)`), so an exception does cross the component
boundary. -/
theorem authenticate_missing_apikey_raises :
    (authenticate sampleService
        (.response 200 ""
          (Option.some (.dict [("Authorization", PyVal.str "tok")])))).ret
      = Except.error PyExc.attributeError := rfl

/-- C2 (amended): the transport functions themselves never raise:
every transport-level failure degrades to a `None` return plus an
error log entry, for both POST and GET. -/
theorem transport_failures_never_raise (url : String)
    (headers payload ghead : List (String × PyVal)) (o : HttpOutcome)
    (h : isFailureOutcome o = true) :
    (send_post_request url headers payload o).ret = PyVal.none ∧
      hasErrorLog (send_post_request url headers payload o).log = true ∧
      (send_get_request url ghead o).ret = PyVal.none ∧
      hasErrorLog (send_get_request url ghead o).log = true := by
  cases o <;> simp_all [send_post_request, send_get_request, hasErrorLog, isFailureOutcome]

/-- Witness for the amended C2 at a timeout. -/
theorem transport_failures_never_raise_witness :
    isFailureOutcome HttpOutcome.timeout = true ∧
      ((send_post_request "u" [] [] HttpOutcome.timeout).ret = PyVal.none ∧
        hasErrorLog (send_post_request "u" [] [] HttpOutcome.timeout).log = true ∧
        (send_get_request "u" [] HttpOutcome.timeout).ret = PyVal.none ∧
        hasErrorLog (send_get_request "u" [] HttpOutcome.timeout).log = true) :=
  ⟨rfl, transport_failures_never_raise "u" [] [] [] HttpOutcome.timeout rfl⟩

/-- C5: with `is_customer_self_managed` absent (`None`), the MSP
onboarding call raises TypeError at `int(is_customer_self_managed)`
before any payload is filtered or transmitted, instead of omitting the
absent field as the claim (and the source's own "Remove None values"
filter) intends. No network request is issued. -/
theorem msp_absent_boolean_raises :
    (onboard_aws_account_msp sampleAuthedService "123" "Acme" (PyVal.str "b")
        (PyVal.str "us-east-1") (PyVal.str "1") PyVal.none PyVal.none PyVal.none
        PyVal.none PyVal.none PyVal.none HttpOutcome.timeout).ret
      = Except.error PyExc.typeError ∧
    (onboard_aws_account_msp sampleAuthedService "123" "Acme" (PyVal.str "b")
        (PyVal.str "us-east-1") (PyVal.str "1") PyVal.none PyVal.none PyVal.none
        PyVal.none PyVal.none PyVal.none HttpOutcome.timeout).net = [] :=
  ⟨rfl, rfl⟩

/-- C9 (counterexample): with the source's own default
`account_type="dedicated"`, `int("dedicated")` raises ValueError, so
the MSP onboarding call does not return `None` on every input. -/
theorem msp_raising_input_not_null :
    (onboard_aws_account_msp sampleAuthedService "123" "Acme" (PyVal.str "b")
        (PyVal.str "us-east-1") (PyVal.str "dedicated") PyVal.none PyVal.none
        (PyVal.int 1) PyVal.none (PyVal.int 0) PyVal.none HttpOutcome.timeout).ret
      = Except.error PyExc.valueError ∧
    (onboard_aws_account_msp sampleAuthedService "123" "Acme" (PyVal.str "b")
        (PyVal.str "us-east-1") (PyVal.str "dedicated") PyVal.none PyVal.none
        (PyVal.int 1) PyVal.none (PyVal.int 0) PyVal.none HttpOutcome.timeout).ret
      ≠ Except.ok PyVal.none :=
  ⟨rfl, fun h => nomatch h⟩

/-- C9 (amended): whenever the MSP onboarding call completes without
raising, its return value is `None` — it never returns the API
response, including when the remote call succeeds with structured
JSON. -/
theorem msp_normal_return_is_null (s : PileusAPIService) (account_id account_name : String)
    (bn br acctType rci rcn icsm rcd aala elam : PyVal) (o : HttpOutcome) (v : PyVal)
    (hret : (onboard_aws_account_msp s account_id account_name bn br acctType rci rcn
        icsm rcd aala elam o).ret = Except.ok v) :
    v = PyVal.none := by
  by_cases hg : (!pyTruthy s.auth_token || !pyTruthy s.api_key) = true
  · simp [onboard_aws_account_msp, hg] at hret
    exact hret.symm
  · rcases h1 : pyInt acctType with e1 | n1 <;>
      rcases h2 : pyInt icsm with e2 | n2 <;>
        rcases h3 : pyInt aala with e3 | n3 <;>
          simp [onboard_aws_account_msp, hg, h1, h2, h3] at hret <;>
            exact hret.symm

/-- Witness for the amended C9 at a concrete successful MSP call whose
response is structured JSON. -/
theorem msp_normal_return_is_null_witness :
    (onboard_aws_account_msp sampleAuthedService "123" "Acme" (PyVal.str "b")
        (PyVal.str "us-east-1") (PyVal.str "1") PyVal.none PyVal.none (PyVal.int 1)
        PyVal.none (PyVal.int 0) PyVal.none
        (.response 200 "" (Option.some (.dict [("ok", PyVal.bool true)])))).ret
      = Except.ok PyVal.none ∧
    PyVal.none = PyVal.none :=
  ⟨rfl,
    msp_normal_return_is_null sampleAuthedService "123" "Acme" (PyVal.str "b")
      (PyVal.str "us-east-1") (PyVal.str "1") PyVal.none PyVal.none (PyVal.int 1)
      PyVal.none (PyVal.int 0) PyVal.none
      (.response 200 "" (Option.some (.dict [("ok", PyVal.bool true)]))) PyVal.none rfl⟩
